import Mathlib

/-!
Shallow embedding of the SanMusic backend (src/main.py, src/schemas.py):
a FastAPI service persisting Song documents in a document store and
serving uploaded media.  Documents are modelled as association lists of
string keys to dynamic values (Python dicts with unique keys); the
document store (`database.py`, imported by main.py but not part of the
sources) is modelled from the spec.  Handlers are pure functions from
their parsed inputs and the store state to a response together with the
updated store state; an HTTP error raised by a handler is an
`Except.error`.
-/

namespace SanMusic

/-- A dynamic (Python) value stored in a document field: a string, a
number (durations; modelled over `Int`, which is exact for the inputs the
claims need), a datetime (modelled as seconds, with `datetime.min` as
`0`), a store-native ObjectId carrying its hex string, or `None`. -/
inductive Value where
  | str (s : String)
  | num (n : Int)
  | time (t : Nat)
  | oid (h : String)
  | null
deriving DecidableEq, Repr

/-- A document: a Python dict as an association list with unique keys. -/
abbrev Doc := List (String × Value)

/-- Python `d.get(k)` / `d[k]`: the value at the first matching key. -/
def dictLookup (k : String) : Doc → Option Value
  | [] => none
  | p :: ps => if p.1 = k then some p.2 else dictLookup k ps

/-- Removal of a key, the effect of Python `d.pop(k, default)` on `d`. -/
def dictRemove (k : String) : Doc → Doc
  | [] => []
  | p :: ps => if p.1 = k then dictRemove k ps else p :: dictRemove k ps

/-- Python `k in d`. -/
def dictHasKey (k : String) (d : Doc) : Bool :=
  d.any (fun p => p.1 == k)

/-- Python `d[k] = v`: overwrite in place when the key exists, else
append the new key at the end. -/
def dictSet (k : String) (v : Value) (d : Doc) : Doc :=
  if dictHasKey k d then d.map (fun p => if p.1 = k then (k, v) else p)
  else d ++ [(k, v)]

/-- Python `str(...)` on a stored value: strings render as themselves,
`str(ObjectId(h))` is the hex string `h`; the remaining renderings are
never reached by the claims (`str("")` on the pop default is `""`). -/
def pyStr : Value → String
  | .str s => s
  | .oid h => h
  | .num n => toString n
  | .time t => toString t
  | .null => "None"

/-- The document-store state: the `"song"` collection (the only
collection either call site names), the next store-assigned identifier,
and the store clock assigning `created_at`. -/
structure Store where
  songs : List Doc
  nextId : Nat
  now : Nat
deriving DecidableEq, Repr

/-- Modelled from the spec: `get_documents` of `database.py` (imported by
main.py but not under the sources).  Spec section 6: `queryAll
(collectionName) -> sequence of documents (each including a store-native
identifier and a creation timestamp)`.  Only the `"song"` collection is
ever queried, with an empty filter. -/
def get_documents (_collection : String) (_filter : Doc) (st : Store) : List Doc :=
  st.songs

/-- Modelled from the spec: `create_document` of `database.py` (imported
by main.py but not under the sources).  Spec sections 4.3 and 6:
`create(collectionName, document) -> id`; the store assigns `id` and
`created_at`, and the identifier's string representation is returned.
Only the `"song"` collection is ever written. -/
def create_document (_collection : String) (doc : Doc) (st : Store) : String × Store :=
  (toString st.nextId,
   { songs := st.songs ++
       [doc ++ [("_id", Value.oid (toString st.nextId)), ("created_at", Value.time st.now)]],
     nextId := st.nextId + 1,
     now := st.now })

/-- main.py line 87: `d["id"] = str(d.pop("_id", ""))` — pop the
store-native identifier (defaulting to `""`) and set its string form as
`id`. -/
def project (d : Doc) : Doc :=
  dictSet "id" (.str (pyStr ((dictLookup "_id" d).getD (.str "")))) (dictRemove "_id" d)

/-- main.py line 90 sort key: `x.get("created_at", datetime.min)`,
with datetimes as seconds and `datetime.min` as `0`.  A non-datetime
`created_at` would raise `TypeError` inside Python's sort; such documents
are outside `isStoreDoc` and the junk clause is never relied on. -/
def keyOf (d : Doc) : Nat :=
  match dictLookup "created_at" d with
  | some (.time t) => t
  | _ => 0

/-- Insertion into a list sorted by `keyOf` descending. -/
def insertDesc (x : Doc) : List Doc → List Doc
  | [] => [x]
  | y :: ys => if keyOf x ≤ keyOf y then y :: insertDesc x ys else x :: y :: ys

/-- `out.sort(key=..., reverse=True)` of main.py line 90: sort by
`created_at` descending (insertion sort; sortedness and the permutation
property are what the claims consume). -/
def sortDesc : List Doc → List Doc
  | [] => []
  | x :: xs => insertDesc x (sortDesc xs)

/-- main.py lines 81-91, `GET /songs`: query all song documents, project
`_id` into a string `id`, and sort newest first. -/
def list_songs (st : Store) : List Doc :=
  sortDesc ((get_documents "song" [] st).map project)

/-- The keys a stored song document can carry: the `Song` schema fields
of schemas.py plus the two store-assigned fields. -/
def storeKeys : List String :=
  ["title", "artist", "album", "coverUrl", "audioUrl", "duration", "created_at", "_id"]

/-- Modelled from the spec: the shape of a document returned by the
store (`database.py` is not under the sources).  Spec sections 3 and 6:
persisted documents are Song-shaped with the store-assigned identifier
and creation timestamp; being a dict, keys are unique, and `created_at`,
when present, is a datetime. -/
def isStoreDoc (d : Doc) : Prop :=
  (d.map Prod.fst).Nodup ∧ (∀ p ∈ d, p.1 ∈ storeKeys) ∧
    (∀ v, dictLookup "created_at" d = some v → ∃ t, v = Value.time t)

instance (d : Doc) : Decidable (isStoreDoc d) := by
  unfold isStoreDoc
  have : Decidable (∀ v, dictLookup "created_at" d = some v → ∃ t, v = Value.time t) := by
    match h : dictLookup "created_at" d with
    | none => exact isTrue (by simp [h])
    | some (.time t) => exact isTrue (by simp [h])
    | some (.str s) => exact isFalse (by simp [h])
    | some (.num n) => exact isFalse (by simp [h])
    | some (.oid o) => exact isFalse (by simp [h])
    | some .null => exact isFalse (by simp [h])
  infer_instance

/-- An HTTP error raised by a handler (`HTTPException`). -/
structure HttpError where
  status : Nat
  detail : String
deriving DecidableEq, Repr

/-- main.py lines 72-78, the `SongCreate` request model: `title` and
`artist` are required plain strings (Pydantic `str` accepts the empty
string), the rest optional with no constraints (`duration` is an
unconstrained `Optional[float]`). -/
structure SongCreate where
  title : String
  artist : String
  album : Option String
  coverUrl : Option String
  audioUrl : Option String
  duration : Option Int
deriving DecidableEq, Repr

/-- schemas.py lines 44-54, the `Song` schema (same six fields;
constructed on the upload path, which never supplies `duration`). -/
structure Song where
  title : String
  artist : String
  album : Option String
  coverUrl : Option String
  audioUrl : Option String
  duration : Option Int
deriving DecidableEq, Repr

/-- An optional string field as a stored value (`None` when absent). -/
def optStr : Option String → Value
  | none => .null
  | some s => .str s

/-- An optional number field as a stored value. -/
def durVal : Option Int → Value
  | none => .null
  | some n => .num n

/-- The dict a `SongCreate` model persists as. -/
def songCreateToDoc (s : SongCreate) : Doc :=
  [("title", .str s.title), ("artist", .str s.artist), ("album", optStr s.album),
   ("coverUrl", optStr s.coverUrl), ("audioUrl", optStr s.audioUrl),
   ("duration", durVal s.duration)]

/-- The dict a `Song` model persists as. -/
def songToDoc (s : Song) : Doc :=
  [("title", .str s.title), ("artist", .str s.artist), ("album", optStr s.album),
   ("coverUrl", optStr s.coverUrl), ("audioUrl", optStr s.audioUrl),
   ("duration", durVal s.duration)]

/-- Python truthiness test `not song.audioUrl` of main.py line 97:
true for `None` and for the empty string. -/
def isFalsyOptStr : Option String → Bool
  | none => true
  | some s => s.isEmpty

/-- main.py lines 94-100, `POST /songs`: reject with a 400 when
`audioUrl` is absent or empty, otherwise persist the document and return
the store-assigned id.  The store state is returned alongside the
response (unchanged on the error path). -/
def create_song (song : SongCreate) (st : Store) : Except HttpError String × Store :=
  if isFalsyOptStr song.audioUrl then
    (.error ⟨400, "audioUrl is required when not uploading a file."⟩, st)
  else
    let r := create_document "song" (songCreateToDoc song) st
    (.ok r.1, r.2)

/-- A multipart upload part; the claims only consume its filename (the
bytes are written to disk, a filesystem effect outside the store model). -/
structure UploadFile where
  filename : String
deriving DecidableEq, Repr

/-- The `{id, audioUrl, coverUrl}` response of `POST /songs/upload`
(`coverUrl` is the Python `None` when no cover was sent). -/
structure UploadResponse where
  id : String
  audioUrl : String
  coverUrl : Option String
deriving DecidableEq, Repr

/-- Python `filename.replace(' ', '_')`: every space becomes an
underscore (single-character pattern, hence a character map). -/
def replaceSpaces (s : String) : String :=
  s.map (fun c => if c = ' ' then '_' else c)

/-- main.py lines 113 and 120, the derived filename
`f"(int(datetime.utcnow().timestamp()))_(filename.replace(' ', '_'))"`:
the Unix timestamp at second resolution, an underscore, then the original
filename with spaces replaced. -/
def safeName (now : Nat) (filename : String) : String :=
  toString now ++ "_" ++ replaceSpaces filename

/-- main.py lines 103-136, `POST /songs/upload`: derive the audio
filename and its `/media/audio/` URL, the cover filename and its
`/media/covers/` URL when a cover is present (`None` otherwise), persist
a `Song` built from the form fields and derived URLs (no `duration`),
and return `{id, audioUrl, coverUrl}`.  Both `datetime.utcnow()` calls
happen within the handling of one request and are modelled by the single
clock value `now`; the file writes are filesystem effects with no bearing
on the claims. -/
def upload_song (now : Nat) (title artist : String) (album : Option String)
    (audio : UploadFile) (cover : Option UploadFile) (st : Store) :
    UploadResponse × Store :=
  let safe_audio_name := safeName now audio.filename
  let cover_url := cover.map (fun c => "/media/covers/" ++ safeName now c.filename)
  let audio_url := "/media/audio/" ++ safe_audio_name
  let song_doc : Song :=
    { title := title, artist := artist, album := album,
      coverUrl := cover_url, audioUrl := some audio_url, duration := none }
  let r := create_document "song" (songToDoc song_doc) st
  ({ id := r.1, audioUrl := audio_url, coverUrl := cover_url }, r.2)

deriving instance DecidableEq for Except

/-- The state `GET /test` finds the store handle in: `db` is `None`; or
the handle is live and collection introspection either returns the
collection names or raises (message `e`); or touching the handle itself
raises (e.g. a `name` property raising a non-AttributeError, which
`hasattr` does not swallow and the outer `except` catches). -/
inductive DbState where
  | noDb
  | withDb (name : Option String) (intro : Except String (List String))
  | broken (e : String)
deriving DecidableEq, Repr

/-- The diagnostic object `GET /test` returns.  In the source,
`database_url` and `database_name` are unconditionally overwritten from
the environment on lines 66-67, so only their final values appear. -/
structure TestResponse where
  backend : String
  database : String
  database_url : String
  database_name : String
  connection_status : String
  collections : List String
deriving DecidableEq, Repr

/-- The response body main.py lines 38-68 builds for a given store
state: every failure is rendered into the `database` string (`str(e)`
truncated to 50 characters), `collections` is truncated to the first 10
names, and the environment flags are reported as set / not set. -/
def testResponse (s : DbState) (env : String → Bool) : TestResponse :=
  { backend := "✅ Running",
    database :=
      match s with
      | .noDb => "⚠️  Available but not initialized"
      | .withDb _ (.ok _) => "✅ Connected & Working"
      | .withDb _ (.error e) => "⚠️  Connected but Error: " ++ e.take 50
      | .broken e => "❌ Error: " ++ e.take 50,
    database_url := if env "DATABASE_URL" then "✅ Set" else "❌ Not Set",
    database_name := if env "DATABASE_NAME" then "✅ Set" else "❌ Not Set",
    connection_status :=
      match s with
      | .withDb _ _ => "Connected"
      | _ => "Not Connected",
    collections :=
      match s with
      | .withDb _ (.ok cs) => cs.take 10
      | _ => [] }

/-- main.py lines 38-68, `GET /test`: always a 200 with the diagnostic
body — never an `Except.error`, whatever the store state. -/
def test_database (s : DbState) (env : String → Bool) : Except HttpError TestResponse :=
  .ok (testResponse s env)

/-! ### Dictionary lemmas -/

theorem dictLookup_append (k : String) (d₁ d₂ : Doc) :
    dictLookup k (d₁ ++ d₂) =
      match dictLookup k d₁ with
      | some v => some v
      | none => dictLookup k d₂ := by
  induction d₁ with
  | nil => simp [dictLookup]
  | cons p ps ih =>
    by_cases h : p.1 = k
    · simp [dictLookup, h]
    · simpa [dictLookup, h] using ih

theorem dictLookup_eq_none_iff (k : String) (d : Doc) :
    dictLookup k d = none ↔ dictHasKey k d = false := by
  induction d with
  | nil => simp [dictLookup, dictHasKey]
  | cons p ps ih =>
    by_cases h : p.1 = k
    · simp [dictLookup, dictHasKey, h]
    · simpa [dictLookup, dictHasKey, h] using ih

theorem dictLookup_dictRemove_self (k : String) (d : Doc) :
    dictLookup k (dictRemove k d) = none := by
  induction d with
  | nil => simp [dictRemove, dictLookup]
  | cons p ps ih =>
    by_cases h : p.1 = k
    · simpa [dictRemove, h] using ih
    · simpa [dictRemove, dictLookup, h] using ih

theorem dictLookup_dictRemove_ne (k k' : String) (h : k' ≠ k) (d : Doc) :
    dictLookup k' (dictRemove k d) = dictLookup k' d := by
  induction d with
  | nil => simp [dictRemove]
  | cons p ps ih =>
    by_cases hp : p.1 = k
    · have : ¬ p.1 = k' := by
        intro hk; exact h (hk ▸ hp ▸ rfl)
      rw [dictRemove]
      simp only [if_pos hp]
      rw [dictLookup]
      simpa [this] using ih
    · rw [dictRemove]
      simp only [if_neg hp]
      rw [dictLookup, dictLookup]
      by_cases hq : p.1 = k'
      · simp [hq]
      · simpa [hq] using ih

theorem dictLookup_map_replace (k k' : String) (v : Value) (h : k' ≠ k) (d : Doc) :
    dictLookup k' (d.map (fun p => if p.1 = k then (k, v) else p)) = dictLookup k' d := by
  induction d with
  | nil => rfl
  | cons p ps ih =>
    by_cases hp : p.1 = k
    · have hpk : ¬ p.1 = k' := fun hq => h (by rw [← hq, hp])
      have hkk : ¬ (k, v).1 = k' := fun hq => h (by rw [← hq])
      rw [List.map_cons, if_pos hp, dictLookup, dictLookup]
      simp only [if_neg hkk, if_neg hpk]
      exact ih
    · rw [List.map_cons, if_neg hp, dictLookup, dictLookup]
      by_cases hq : p.1 = k'
      · simp [hq]
      · simp only [if_neg hq]
        exact ih

theorem dictLookup_dictSet_self (k : String) (v : Value) (d : Doc) :
    dictLookup k (dictSet k v d) = some v := by
  unfold dictSet
  by_cases h : dictHasKey k d = true
  · simp only [if_pos h]
    induction d with
    | nil => simp [dictHasKey] at h
    | cons p ps ih =>
      by_cases hp : p.1 = k
      · simp [dictLookup, hp]
      · have hps : dictHasKey k ps = true := by
          simpa [dictHasKey, hp] using h
        simpa [dictLookup, hp] using ih hps
  · simp only [if_neg h]
    have hnone : dictLookup k d = none := by
      rw [dictLookup_eq_none_iff]
      simpa using h
    rw [dictLookup_append, hnone]
    simp [dictLookup]

theorem dictLookup_dictSet_ne (k k' : String) (v : Value) (h : k' ≠ k) (d : Doc) :
    dictLookup k' (dictSet k v d) = dictLookup k' d := by
  unfold dictSet
  by_cases hk : dictHasKey k d = true
  · simp only [if_pos hk]
    exact dictLookup_map_replace k k' v h d
  · simp only [if_neg hk]
    rw [dictLookup_append]
    cases hl : dictLookup k' d with
    | some w => rfl
    | none =>
      have hne : ¬ (k = k') := fun hq => h hq.symm
      simp [dictLookup, hne]

theorem dictLookup_eq_none_of_keys (k : String) (d : Doc) (h : ∀ p ∈ d, p.1 ≠ k) :
    dictLookup k d = none := by
  induction d with
  | nil => rfl
  | cons p ps ih =>
    have hp : p.1 ≠ k := h p (List.mem_cons_self p ps)
    rw [dictLookup]
    simp only [if_neg hp]
    exact ih (fun q hq => h q (List.mem_cons_of_mem p hq))

/-! ### Sorting lemmas -/

theorem perm_insertDesc (x : Doc) (l : List Doc) :
    (insertDesc x l).Perm (x :: l) := by
  induction l with
  | nil => simp [insertDesc]
  | cons y ys ih =>
    by_cases h : keyOf x ≤ keyOf y
    · rw [insertDesc]
      simp only [if_pos h]
      exact (ih.cons y).trans (List.Perm.swap x y ys)
    · rw [insertDesc]
      simp [if_neg h]

theorem pairwise_insertDesc (x : Doc) (l : List Doc)
    (h : List.Pairwise (fun a b => keyOf b ≤ keyOf a) l) :
    List.Pairwise (fun a b => keyOf b ≤ keyOf a) (insertDesc x l) := by
  induction l with
  | nil => simp [insertDesc]
  | cons y ys ih =>
    rcases List.pairwise_cons.1 h with ⟨hy, hys⟩
    by_cases hxy : keyOf x ≤ keyOf y
    · rw [insertDesc]
      simp only [if_pos hxy]
      refine List.pairwise_cons.2 ⟨?_, ih hys⟩
      intro b hb
      rcases List.mem_cons.1 ((perm_insertDesc x ys).mem_iff.1 hb) with rfl | hb'
      · exact hxy
      · exact hy b hb'
    · rw [insertDesc]
      simp only [if_neg hxy]
      push_neg at hxy
      refine List.pairwise_cons.2 ⟨?_, h⟩
      intro b hb
      rcases List.mem_cons.1 hb with rfl | hb'
      · exact le_of_lt hxy
      · exact le_trans (hy b hb') (le_of_lt hxy)

theorem perm_sortDesc (l : List Doc) : (sortDesc l).Perm l := by
  induction l with
  | nil => simp [sortDesc]
  | cons x xs ih =>
    rw [sortDesc]
    exact (perm_insertDesc x (sortDesc xs)).trans (ih.cons x)

theorem pairwise_sortDesc (l : List Doc) :
    List.Pairwise (fun a b => keyOf b ≤ keyOf a) (sortDesc l) := by
  induction l with
  | nil => simp [sortDesc]
  | cons x xs ih => exact pairwise_insertDesc x (sortDesc xs) ih

theorem list_songs_perm (st : Store) :
    (list_songs st).Perm (st.songs.map project) :=
  perm_sortDesc (st.songs.map project)

/-! ### Projection lemmas -/

theorem project_lookup_id (d : Doc) (v : Value) (hv : dictLookup "_id" d = some v) :
    dictLookup "id" (project d) = some (.str (pyStr v)) := by
  unfold project
  rw [hv]
  exact dictLookup_dictSet_self "id" _ _

theorem project_lookup_id_of_missing (d : Doc) (h : dictLookup "_id" d = none) :
    dictLookup "id" (project d) = some (.str "") := by
  unfold project
  rw [h]
  exact dictLookup_dictSet_self "id" _ _

theorem project_lookup_oid (d : Doc) : dictLookup "_id" (project d) = none := by
  unfold project
  rw [dictLookup_dictSet_ne "id" "_id" _ (by decide)]
  exact dictLookup_dictRemove_self "_id" d

theorem project_preserves (d : Doc) (k : String) (v : Value)
    (hk1 : k ≠ "_id") (hk2 : k ≠ "id") (hv : dictLookup k d = some v) :
    dictLookup k (project d) = some v := by
  unfold project
  rw [dictLookup_dictSet_ne "id" k _ hk2, dictLookup_dictRemove_ne "_id" k hk1]
  exact hv

theorem project_mem_list_songs (st : Store) (d : Doc) (hd : d ∈ st.songs) :
    project d ∈ list_songs st :=
  (list_songs_perm st).mem_iff.2 (List.mem_map_of_mem project hd)

theorem storeDoc_lookup_id (d : Doc) (h : isStoreDoc d) :
    dictLookup "id" d = none := by
  apply dictLookup_eq_none_of_keys
  intro p hp hpk
  have hmem := h.2.1 p hp
  rw [hpk] at hmem
  simp [storeKeys] at hmem

/-! ### Claims about GET /songs -/

/-- Claim C2: for every sequence of documents returned by the store,
`GET /songs` returns those records sorted by `created_at` descending
(newest first); a record missing `created_at` is sorted as if its
timestamp were the earliest possible value (`keyOf` maps it to `0`, the
embedding of `datetime.min`), so it sorts after every newer record.  The
output is the sorted sequence of exactly the projected records. -/
theorem list_songs_sorted_desc (st : Store) (_h : ∀ d ∈ st.songs, isStoreDoc d) :
    List.Pairwise (fun a b => keyOf b ≤ keyOf a) (list_songs st) ∧
    (list_songs st).Perm (st.songs.map project) ∧
    (∀ d, dictLookup "created_at" d = none → keyOf d = 0) :=
  ⟨pairwise_sortDesc _, list_songs_perm st, fun d hd => by simp [keyOf, hd]⟩

/-- Claim C3: every record of `GET /songs` corresponding to a store
document with a store-native identifier carries a string `id` equal to
the identifier's string form, and no `_id` field. -/
theorem list_songs_id_projection (st : Store) (d : Doc) (v : Value)
    (hd : d ∈ st.songs) (hv : dictLookup "_id" d = some v) :
    dictLookup "id" (project d) = some (.str (pyStr v)) ∧
    dictLookup "_id" (project d) = none ∧
    project d ∈ list_songs st :=
  ⟨project_lookup_id d v hv, project_lookup_oid d, project_mem_list_songs st d hd⟩

/-- Claim C9: `GET /songs` changes nothing but the identifier
projection — the output is a permutation of the projected inputs (no
record added, dropped or duplicated), and on each store document every
key-value pair other than `_id` survives the projection unchanged. -/
theorem list_songs_frame (st : Store) (h : ∀ d ∈ st.songs, isStoreDoc d) :
    (list_songs st).Perm (st.songs.map project) ∧
    (∀ d ∈ st.songs, ∀ k v, k ≠ "_id" → dictLookup k d = some v →
      dictLookup k (project d) = some v) := by
  refine ⟨list_songs_perm st, ?_⟩
  intro d hd k v hk hv
  by_cases hid : k = "id"
  · rw [hid, storeDoc_lookup_id d (h d hd)] at hv
    exact absurd hv (by simp)
  · exact project_preserves d k v hk hid hv

/-- Claim C10: `GET /songs` is total on documents missing the
store-native identifier — the projection still produces a record, whose
`id` is the (string) rendering of the pop default, the empty string. -/
theorem list_songs_missing_id_total (st : Store) (d : Doc)
    (hd : d ∈ st.songs) (h : dictLookup "_id" d = none) :
    dictLookup "id" (project d) = some (.str "") ∧ project d ∈ list_songs st :=
  ⟨project_lookup_id_of_missing d h, project_mem_list_songs st d hd⟩

/-- Witness for C2: two store documents, one missing `created_at`; the
listing is sorted newest first and is a permutation of the projections,
and a record with no `created_at` has the earliest possible key. -/
theorem list_songs_sorted_desc_witness :
    List.Pairwise (fun a b => keyOf b ≤ keyOf a)
      (list_songs { songs := [[("title", Value.str "X"), ("_id", Value.oid "a")],
                              [("created_at", Value.time 3), ("_id", Value.oid "b")]],
                    nextId := 2, now := 7 }) ∧
    (list_songs { songs := [[("title", Value.str "X"), ("_id", Value.oid "a")],
                            [("created_at", Value.time 3), ("_id", Value.oid "b")]],
                  nextId := 2, now := 7 }).Perm
      ([[("title", Value.str "X"), ("_id", Value.oid "a")],
        [("created_at", Value.time 3), ("_id", Value.oid "b")]].map project) ∧
    keyOf [] = 0 :=
  ⟨(list_songs_sorted_desc _ (by decide)).1,
   (list_songs_sorted_desc _ (by decide)).2.1,
   (list_songs_sorted_desc { songs := [], nextId := 0, now := 0 }
      (by decide)).2.2 [] rfl⟩

/-- Witness for C3: a document with ObjectId `"a"` lists with string
`id` `"a"` and no `_id`. -/
theorem list_songs_id_projection_witness :
    dictLookup "id" (project [("title", Value.str "X"), ("_id", Value.oid "a")]) =
      some (Value.str "a") ∧
    dictLookup "_id" (project [("title", Value.str "X"), ("_id", Value.oid "a")]) = none ∧
    project [("title", Value.str "X"), ("_id", Value.oid "a")] ∈
      list_songs { songs := [[("title", Value.str "X"), ("_id", Value.oid "a")]],
                   nextId := 1, now := 0 } :=
  list_songs_id_projection _ _ (Value.oid "a") (by decide) (by decide)

/-- Witness for C9: the listing of one store document is the permutation
of its projection, and its `title` pair survives unchanged. -/
theorem list_songs_frame_witness :
    (list_songs { songs := [[("title", Value.str "X"), ("created_at", Value.time 3),
                             ("_id", Value.oid "a")]],
                  nextId := 1, now := 0 }).Perm
      ([[("title", Value.str "X"), ("created_at", Value.time 3),
         ("_id", Value.oid "a")]].map project) ∧
    dictLookup "title"
        (project [("title", Value.str "X"), ("created_at", Value.time 3),
                  ("_id", Value.oid "a")]) = some (Value.str "X") :=
  ⟨(list_songs_frame
      { songs := [[("title", Value.str "X"), ("created_at", Value.time 3),
                   ("_id", Value.oid "a")]], nextId := 1, now := 0 } (by decide)).1,
   (list_songs_frame
      { songs := [[("title", Value.str "X"), ("created_at", Value.time 3),
                   ("_id", Value.oid "a")]], nextId := 1, now := 0 } (by decide)).2
     [("title", Value.str "X"), ("created_at", Value.time 3), ("_id", Value.oid "a")]
     (by decide) "title" (Value.str "X") (by decide) (by decide)⟩

/-- Witness for C10: a document with no `_id` still lists, with `id`
the empty string. -/
theorem list_songs_missing_id_total_witness :
    dictLookup "id" (project [("title", Value.str "X")]) = some (Value.str "") ∧
    project [("title", Value.str "X")] ∈
      list_songs { songs := [[("title", Value.str "X")]], nextId := 0, now := 0 } :=
  list_songs_missing_id_total _ _ (by decide) (by decide)

/-! ### Claims about POST /songs -/

/-- Claim C1: on a parsed `POST /songs` body, a missing or empty
`audioUrl` yields exactly the 400 error with the fixed message and
leaves the store untouched, while a non-empty `audioUrl` persists one
new Song document (with the store-assigned `_id` and `created_at`) and
returns the store-assigned id. -/
theorem create_song_audioUrl_validation (song : SongCreate) (st : Store) :
    ((song.audioUrl = none ∨ song.audioUrl = some "") →
      create_song song st =
        (.error ⟨400, "audioUrl is required when not uploading a file."⟩, st)) ∧
    (∀ u, song.audioUrl = some u → u ≠ "" →
      create_song song st =
        (.ok (toString st.nextId),
         { songs := st.songs ++ [songCreateToDoc song ++
             [("_id", Value.oid (toString st.nextId)),
              ("created_at", Value.time st.now)]],
           nextId := st.nextId + 1, now := st.now })) := by
  constructor
  · intro h
    have hf : isFalsyOptStr song.audioUrl = true := by
      rcases h with h | h <;> rw [h] <;> rfl
    simp [create_song, hf]
  · intro u hu hne
    have hf : isFalsyOptStr song.audioUrl = false := by
      rw [hu]
      show u.isEmpty = false
      rw [Bool.eq_false_iff]
      intro hb
      exact hne ((String.isEmpty_iff u).1 hb)
    simp [create_song, hf, create_document]

/-- Witness for C1: with no `audioUrl` the request 400s with the exact
message and the store is unchanged; with `audioUrl` `"http://x/y.mp3"`
one document is persisted and its store-assigned id is returned. -/
theorem create_song_audioUrl_validation_witness :
    create_song { title := "A", artist := "B", album := none, coverUrl := none,
                  audioUrl := none, duration := none }
        { songs := [], nextId := 0, now := 0 } =
      (.error ⟨400, "audioUrl is required when not uploading a file."⟩,
       { songs := [], nextId := 0, now := 0 }) ∧
    create_song { title := "A", artist := "B", album := none, coverUrl := none,
                  audioUrl := some "http://x/y.mp3", duration := none }
        { songs := [], nextId := 0, now := 0 } =
      (.ok "0",
       { songs := [[("title", Value.str "A"), ("artist", Value.str "B"),
                    ("album", Value.null), ("coverUrl", Value.null),
                    ("audioUrl", Value.str "http://x/y.mp3"), ("duration", Value.null),
                    ("_id", Value.oid "0"), ("created_at", Value.time 0)]],
         nextId := 1, now := 0 }) :=
  ⟨(create_song_audioUrl_validation _ _).1 (Or.inl rfl),
   (create_song_audioUrl_validation _ _).2 "http://x/y.mp3" rfl (by decide)⟩

/-- Counterexample to C6: `POST /songs` accepts a body whose `title` is
the empty string — `SongCreate.title` is a plain Pydantic `str` and the
handler checks only `audioUrl` — and persists the Song with the empty
title, instead of rejecting it. -/
theorem create_song_accepts_empty_title :
    create_song { title := "", artist := "B", album := none, coverUrl := none,
                  audioUrl := some "u", duration := none }
        { songs := [], nextId := 0, now := 0 } =
      (.ok "0",
       { songs := [[("title", Value.str ""), ("artist", Value.str "B"),
                    ("album", Value.null), ("coverUrl", Value.null),
                    ("audioUrl", Value.str "u"), ("duration", Value.null),
                    ("_id", Value.oid "0"), ("created_at", Value.time 0)]],
         nextId := 1, now := 0 }) := by decide

/-- Amended C6: `title` and `artist` are required to be present (the
request model has no optional or defaulted `title`/`artist`), but their
emptiness is not validated — any accepted request persists them
verbatim, the empty string included. -/
theorem create_song_title_artist_passthrough (song : SongCreate) (st : Store)
    (u : String) (hu : song.audioUrl = some u) (hne : u ≠ "") :
    (create_song song st).1 = .ok (toString st.nextId) ∧
    (create_song song st).2.songs =
      st.songs ++ [songCreateToDoc song ++
        [("_id", Value.oid (toString st.nextId)), ("created_at", Value.time st.now)]] ∧
    dictLookup "title" (songCreateToDoc song) = some (.str song.title) ∧
    dictLookup "artist" (songCreateToDoc song) = some (.str song.artist) := by
  have hf : isFalsyOptStr song.audioUrl = false := by
    rw [hu]
    show u.isEmpty = false
    rw [Bool.eq_false_iff]
    intro hb
    exact hne ((String.isEmpty_iff u).1 hb)
  refine ⟨?_, ?_, ?_, ?_⟩
  · simp [create_song, hf, create_document]
  · simp [create_song, hf, create_document]
  · rfl
  · rfl

/-- Witness for the amended C6: a request with empty `title` and
non-empty `audioUrl` succeeds and the empty title is persisted
verbatim. -/
theorem create_song_title_artist_passthrough_witness :
    (create_song { title := "", artist := "B", album := none, coverUrl := none,
                   audioUrl := some "u", duration := none }
        { songs := [], nextId := 0, now := 0 }).1 = .ok "0" ∧
    (create_song { title := "", artist := "B", album := none, coverUrl := none,
                   audioUrl := some "u", duration := none }
        { songs := [], nextId := 0, now := 0 }).2.songs =
      [] ++ [songCreateToDoc { title := "", artist := "B", album := none, coverUrl := none,
                               audioUrl := some "u", duration := none } ++
        [("_id", Value.oid "0"), ("created_at", Value.time 0)]] ∧
    dictLookup "title" (songCreateToDoc { title := "", artist := "B", album := none,
                                          coverUrl := none, audioUrl := some "u",
                                          duration := none }) = some (.str "") ∧
    dictLookup "artist" (songCreateToDoc { title := "", artist := "B", album := none,
                                           coverUrl := none, audioUrl := some "u",
                                           duration := none }) = some (.str "B") :=
  create_song_title_artist_passthrough _ _ "u" rfl (by decide)

/-- Counterexample to C7: `POST /songs` accepts `duration := -1` —
`SongCreate.duration` is an unconstrained `Optional[float]`, and the
handler persists the `SongCreate` data, never passing through the
`Song` schema whose `ge=0` bound C7 presumes — and the negative
duration is persisted. -/
theorem create_song_accepts_negative_duration :
    create_song { title := "A", artist := "B", album := none, coverUrl := none,
                  audioUrl := some "u", duration := some (-1) }
        { songs := [], nextId := 0, now := 0 } =
      (.ok "0",
       { songs := [[("title", Value.str "A"), ("artist", Value.str "B"),
                    ("album", Value.null), ("coverUrl", Value.null),
                    ("audioUrl", Value.str "u"), ("duration", Value.num (-1)),
                    ("_id", Value.oid "0"), ("created_at", Value.time 0)]],
         nextId := 1, now := 0 }) := by decide

/-- Amended C7: `duration` is optional and not validated by
`POST /songs`; whatever number the request supplies, negative included,
is accepted and persisted verbatim. -/
theorem create_song_duration_passthrough (song : SongCreate) (st : Store)
    (u : String) (hu : song.audioUrl = some u) (hne : u ≠ "") :
    (create_song song st).1 = .ok (toString st.nextId) ∧
    dictLookup "duration" (songCreateToDoc song) = some (durVal song.duration) := by
  have hf : isFalsyOptStr song.audioUrl = false := by
    rw [hu]
    show u.isEmpty = false
    rw [Bool.eq_false_iff]
    intro hb
    exact hne ((String.isEmpty_iff u).1 hb)
  exact ⟨by simp [create_song, hf, create_document], rfl⟩

/-- Witness for the amended C7: `duration := -1` is accepted and
persisted as `-1`. -/
theorem create_song_duration_passthrough_witness :
    (create_song { title := "A", artist := "B", album := none, coverUrl := none,
                   audioUrl := some "u", duration := some (-1) }
        { songs := [], nextId := 0, now := 0 }).1 = .ok "0" ∧
    dictLookup "duration" (songCreateToDoc { title := "A", artist := "B", album := none,
                                             coverUrl := none, audioUrl := some "u",
                                             duration := some (-1) }) =
      some (durVal (some (-1))) :=
  create_song_duration_passthrough _ _ "u" rfl (by decide)

/-! ### Claims about POST /songs/upload -/

theorem replaceSpaces_append (a b : String) :
    replaceSpaces (a ++ b) = replaceSpaces a ++ replaceSpaces b := by
  unfold replaceSpaces
  rw [String.map_eq, String.map_eq, String.map_eq]
  apply String.ext
  simp

theorem replaceSpaces_of_no_space (b : String) (h : ∀ c ∈ b.data, c ≠ ' ') :
    replaceSpaces b = b := by
  unfold replaceSpaces
  rw [String.map_eq]
  apply String.ext
  show b.data.map _ = b.data
  conv_rhs => rw [← List.map_id b.data]
  apply List.map_congr_left
  intro c hc
  simp [h c hc]

/-- Claim C4: the derived audio filename is the Unix timestamp at second
resolution, an underscore, then the original filename with every space
replaced by an underscore; the returned `audioUrl` is `/media/audio/`
followed by that filename; and a space-free extension of the original
filename survives the replacement unchanged. -/
theorem upload_song_audio_filename (now : Nat) (title artist : String)
    (album : Option String) (audio : UploadFile) (cover : Option UploadFile)
    (st : Store) (base ext : String)
    (hf : audio.filename = base ++ ext) (hext : ∀ c ∈ ext.data, c ≠ ' ') :
    (upload_song now title artist album audio cover st).1.audioUrl =
      "/media/audio/" ++ (toString now ++ "_" ++ replaceSpaces audio.filename) ∧
    replaceSpaces audio.filename = replaceSpaces base ++ ext := by
  constructor
  · rfl
  · rw [hf, replaceSpaces_append, replaceSpaces_of_no_space ext hext]

/-- Witness for C4: uploading `"a b.mp3"` at time 1700000000 yields
`audioUrl` `/media/audio/1700000000_a_b.mp3`, its `.mp3` extension
preserved. -/
theorem upload_song_audio_filename_witness :
    (upload_song 1700000000 "A" "B" none { filename := "a b.mp3" } none
        { songs := [], nextId := 0, now := 0 }).1.audioUrl =
      "/media/audio/" ++ (toString 1700000000 ++ "_" ++ replaceSpaces "a b.mp3") ∧
    replaceSpaces "a b.mp3" = replaceSpaces "a b" ++ ".mp3" :=
  upload_song_audio_filename 1700000000 "A" "B" none { filename := "a b.mp3" } none
    { songs := [], nextId := 0, now := 0 } "a b" ".mp3" rfl (by decide)

/-- Claim C8: the upload response is `{id, audioUrl, coverUrl}`; when a
cover is sent, `coverUrl` is `/media/covers/` followed by the derived
cover filename, and with no cover it is the absent value (Python
`None`). -/
theorem upload_song_cover_url (now : Nat) (title artist : String)
    (album : Option String) (audio : UploadFile) (cover : Option UploadFile)
    (st : Store) :
    (upload_song now title artist album audio cover st).1 =
      { id := toString st.nextId,
        audioUrl := "/media/audio/" ++ safeName now audio.filename,
        coverUrl := cover.map (fun c => "/media/covers/" ++ safeName now c.filename) } ∧
    (∀ c, cover = some c →
      (upload_song now title artist album audio cover st).1.coverUrl =
        some ("/media/covers/" ++ safeName now c.filename)) ∧
    (cover = none →
      (upload_song now title artist album audio cover st).1.coverUrl = none) := by
  refine ⟨rfl, ?_, ?_⟩
  · rintro c rfl
    rfl
  · rintro rfl
    rfl

/-- Witness for C8: with a cover the response's `coverUrl` is the
`/media/covers/` path of the derived name; without one it is absent. -/
theorem upload_song_cover_url_witness :
    (upload_song 5 "A" "B" none { filename := "x.mp3" }
        (some { filename := "c d.png" }) { songs := [], nextId := 0, now := 0 }).1.coverUrl =
      some ("/media/covers/" ++ safeName 5 "c d.png") ∧
    (upload_song 5 "A" "B" none { filename := "x.mp3" } none
        { songs := [], nextId := 0, now := 0 }).1.coverUrl = none :=
  ⟨(upload_song_cover_url 5 "A" "B" none { filename := "x.mp3" }
      (some { filename := "c d.png" }) { songs := [], nextId := 0, now := 0 }).2.1
     { filename := "c d.png" } rfl,
   (upload_song_cover_url 5 "A" "B" none { filename := "x.mp3" } none
      { songs := [], nextId := 0, now := 0 }).2.2 rfl⟩

/-! ### Claim about GET /test -/

/-- Claim C5: `GET /test` succeeds (HTTP 200) in every store state; an
introspection failure is rendered inside the `database` string with the
message truncated to 50 characters (likewise a failure touching the
handle itself), and at most 10 collection names are reported. -/
theorem test_database_never_fails (s : DbState) (env : String → Bool) :
    test_database s env = .ok (testResponse s env) ∧
    (testResponse s env).collections.length ≤ 10 ∧
    (∀ name e, s = DbState.withDb name (.error e) →
      (testResponse s env).database = "⚠️  Connected but Error: " ++ e.take 50) ∧
    (∀ e, s = DbState.broken e →
      (testResponse s env).database = "❌ Error: " ++ e.take 50) := by
  refine ⟨rfl, ?_, ?_, ?_⟩
  · cases s with
    | noDb => simp [testResponse]
    | broken e => simp [testResponse]
    | withDb name intro =>
      cases intro with
      | ok cs =>
        show (cs.take 10).length ≤ 10
        exact List.length_take_le 10 cs
      | error e => simp [testResponse]
  · rintro name e rfl
    rfl
  · rintro e rfl
    rfl

/-- Witness for C5: a store whose introspection raises a message longer
than 50 characters still yields a 200 whose `database` string carries
the message truncated to 50 characters, and no collection names. -/
theorem test_database_never_fails_witness :
    test_database
        (DbState.withDb none
          (.error "connection reset by peer while polling the replica set monitor"))
        (fun _ => false) =
      .ok (testResponse
        (DbState.withDb none
          (.error "connection reset by peer while polling the replica set monitor"))
        (fun _ => false)) ∧
    (testResponse
        (DbState.withDb none
          (.error "connection reset by peer while polling the replica set monitor"))
        (fun _ => false)).collections.length ≤ 10 ∧
    (testResponse
        (DbState.withDb none
          (.error "connection reset by peer while polling the replica set monitor"))
        (fun _ => false)).database =
      "⚠️  Connected but Error: " ++
        "connection reset by peer while polling the replica set monitor".take 50 :=
  ⟨(test_database_never_fails _ _).1,
   (test_database_never_fails _ _).2.1,
   (test_database_never_fails _ _).2.2.1 none
     "connection reset by peer while polling the replica set monitor" rfl⟩

end SanMusic
